import Mathlib

/-!
Verification of the radarr-sonarr MCP server against its specification.

The Python source is shallowly embedded: JSON payloads become the `Json`
inductive, Python dicts become association lists, Python exceptions become
`Except PyErr`, and every handler branch relevant to a claim is translated
into an executable Lean function that mirrors the source line by line.
-/

set_option maxHeartbeats 1000000
set_option maxRecDepth 100000

/-- A JSON value as handled by the Python code.  Numeric payloads that the
claims touch (counts, sizes, ids, view counts) are integers, so `num`
carries an `Int`. -/
inductive Json where
  | null
  | bool (b : Bool)
  | num (n : Int)
  | str (s : String)
  | arr (xs : List Json)
  | obj (fields : List (String × Json))
deriving Repr

mutual

/-- Structural equality test on JSON values. -/
def Json.beq : Json → Json → Bool
  | .null, .null => true
  | .bool a, .bool c => a == c
  | .num a, .num c => a == c
  | .str a, .str c => a == c
  | .arr xs, .arr ys => Json.beqList xs ys
  | .obj xs, .obj ys => Json.beqFields xs ys
  | _, _ => false

/-- Structural equality test on JSON arrays. -/
def Json.beqList : List Json → List Json → Bool
  | [], [] => true
  | x :: xs, y :: ys => Json.beq x y && Json.beqList xs ys
  | _, _ => false

/-- Structural equality test on JSON object field lists. -/
def Json.beqFields : List (String × Json) → List (String × Json) → Bool
  | [], [] => true
  | (k, v) :: xs, (k2, v2) :: ys => k == k2 && Json.beq v v2 && Json.beqFields xs ys
  | _, _ => false

end

mutual

theorem Json.eq_of_beq : ∀ {a b : Json}, Json.beq a b = true → a = b
  | .null, .null, _ => rfl
  | .bool _, .bool _, h => by
    simp only [Json.beq, beq_iff_eq] at h; simp [h]
  | .num _, .num _, h => by
    simp only [Json.beq, beq_iff_eq] at h; simp [h]
  | .str _, .str _, h => by
    simp only [Json.beq, beq_iff_eq] at h; simp [h]
  | .arr xs, .arr ys, h => by
    simp only [Json.beq] at h; simp [Json.eq_of_beqList h]
  | .obj xs, .obj ys, h => by
    simp only [Json.beq] at h; simp [Json.eq_of_beqFields h]

theorem Json.eq_of_beqList : ∀ {xs ys : List Json}, Json.beqList xs ys = true → xs = ys
  | [], [], _ => rfl
  | x :: xs, y :: ys, h => by
    simp only [Json.beqList, Bool.and_eq_true] at h
    simp [Json.eq_of_beq h.1, Json.eq_of_beqList h.2]

theorem Json.eq_of_beqFields :
    ∀ {xs ys : List (String × Json)}, Json.beqFields xs ys = true → xs = ys
  | [], [], _ => rfl
  | (k, v) :: xs, (k2, v2) :: ys, h => by
    simp only [Json.beqFields, Bool.and_eq_true, beq_iff_eq] at h
    simp [h.1.1, Json.eq_of_beq h.1.2, Json.eq_of_beqFields h.2]

end

mutual

theorem Json.beq_self : ∀ (a : Json), Json.beq a a = true
  | .null => rfl
  | .bool _ => by simp [Json.beq]
  | .num _ => by simp [Json.beq]
  | .str _ => by simp [Json.beq]
  | .arr xs => by simp [Json.beq, Json.beqList_self xs]
  | .obj xs => by simp [Json.beq, Json.beqFields_self xs]

theorem Json.beqList_self : ∀ (xs : List Json), Json.beqList xs xs = true
  | [] => rfl
  | x :: xs => by simp [Json.beqList, Json.beq_self x, Json.beqList_self xs]

theorem Json.beqFields_self : ∀ (xs : List (String × Json)), Json.beqFields xs xs = true
  | [] => rfl
  | (k, v) :: xs => by simp [Json.beqFields, Json.beq_self v, Json.beqFields_self xs]

end

instance : DecidableEq Json := fun a b =>
  if h : Json.beq a b = true then
    isTrue (Json.eq_of_beq h)
  else
    isFalse (fun he => h (he ▸ Json.beq_self a))

instance : BEq Json := ⟨Json.beq⟩

/-- A Python dict with string keys, in insertion order. -/
abbrev Dict : Type := List (String × Json)

/-- Python exceptions that the embedded code can raise. -/
inductive PyErr where
  | netError
  | httpError (status : Nat)
  | valueError
  | typeError
  | attrError
  | indexError
  | keyError
  | zeroDivisionError
deriving Repr, DecidableEq

/-- `d.get(k)` on a genuine Python dict: `none` when the key is absent. -/
def dget (d : Dict) (k : String) : Option Json :=
  List.lookup k d

/-- `d.get(k, default)` on a genuine Python dict. -/
def dgetD (d : Dict) (k : String) (dflt : Json) : Json :=
  (dget d k).getD dflt

/-- `j.get(k, default)` where `j` is an arbitrary value: Python raises
AttributeError when `j` is not a dict. -/
def jsonGet (j : Json) (k : String) (dflt : Json) : Except PyErr Json :=
  match j with
  | .obj fields => .ok (dgetD fields k dflt)
  | _ => .error .attrError

/-- Python truthiness of a JSON value. -/
def pyTruthy : Json → Bool
  | .null => false
  | .bool b => b
  | .num n => n != 0
  | .str s => s.length != 0
  | .arr xs => !xs.isEmpty
  | .obj fields => !fields.isEmpty

/-- Python `str()` of a JSON value as interpolated by f-strings. -/
def pyStr : Json → String
  | .null => "None"
  | .bool true => "True"
  | .bool false => "False"
  | .num n => toString n
  | .str s => s
  | .arr _ => "[...]"
  | .obj _ => "\x7b...\x7d"

/-- Python `len()`: defined for strings, lists and dicts, TypeError otherwise. -/
def pyLen : Json → Except PyErr Nat
  | .str s => .ok s.length
  | .arr xs => .ok xs.length
  | .obj fields => .ok fields.length
  | _ => .error .typeError

/-- Python `j > k` against an integer literal: numbers and bools compare,
everything else raises TypeError. -/
def pyGtInt (j : Json) (k : Int) : Except PyErr Bool :=
  match j with
  | .num n => .ok (decide (k < n))
  | .bool b => .ok (decide (k < if b then (1 : Int) else 0))
  | _ => .error .typeError

/-- Python `j == b` against a bool: `True == 1` holds, non-numeric values
compare unequal. -/
def pyEqBool (j : Json) (b : Bool) : Bool :=
  match j with
  | .bool x => x == b
  | .num n => n == (if b then 1 else 0)
  | _ => false

/-- Python numeric coercion for arithmetic: bools are 0/1, anything
non-numeric raises TypeError. -/
def pyToRat (j : Json) : Except PyErr ℚ :=
  match j with
  | .num n => .ok (n : ℚ)
  | .bool b => .ok (if b then 1 else 0)
  | _ => .error .typeError

/-- `xs[0]` in Python: lists and strings index, an empty one raises
IndexError, other values raise. -/
def pyIndexZero : Json → Except PyErr Json
  | .arr (x :: _) => .ok x
  | .arr [] => .error .indexError
  | .str s =>
    match s.data with
    | c :: _ => .ok (.str (String.mk [c]))
    | [] => .error .indexError
  | _ => .error .typeError

/-- Iterating a Python value: lists yield elements, strings yield
one-character strings, dicts yield their keys, others raise TypeError. -/
def pyIter : Json → Except PyErr (List Json)
  | .arr xs => .ok xs
  | .str s => .ok (s.data.map (fun c => .str (String.mk [c])))
  | .obj fields => .ok (fields.map (fun p => .str p.1))
  | _ => .error .typeError

/-- Short-circuiting `all(...)` over a generator whose body may raise:
a false verdict stops iteration before later elements can raise. -/
def pyAllM (f : α → Except PyErr Bool) : List α → Except PyErr Bool
  | [] => .ok true
  | x :: xs =>
    match f x with
    | .error e => .error e
    | .ok true => pyAllM f xs
    | .ok false => .ok false

/-- Short-circuiting filter whose predicate may raise, as a Python list
comprehension evaluates it. -/
def pyFilterM (p : α → Except PyErr Bool) : List α → Except PyErr (List α)
  | [] => .ok []
  | x :: xs => do
    let b ← p x
    let rest ← pyFilterM p xs
    .ok (if b then x :: rest else rest)

/-- Strip every trailing slash from a character list. -/
def rstripSlashCh (l : List Char) : List Char :=
  (l.reverse.dropWhile (fun c => c == '/')).reverse

/-- Python `s.rstrip(chr)` for the slash character: removes ALL trailing
slashes. -/
def pyRstripSlash (s : String) : String :=
  String.mk (rstripSlashCh s.data)

/-- Python `s.lstrip(chr)` for the slash character: removes ALL leading
slashes. -/
def pyLstripSlash (s : String) : String :=
  String.mk (s.data.dropWhile (fun c => c == '/'))

/-! ## Backend client (server.py) -/

/-- The internal config dict built by `load_config` in server.py: one
url/apiKey/basePath triple per backend. -/
structure ServerConfig where
  radarrApiKey : String
  radarrUrl : String
  radarrBasePath : String
  sonarrApiKey : String
  sonarrUrl : String
  sonarrBasePath : String
deriving Repr, DecidableEq

/-- `get_radarr_url`: rstrip the base url and append the base path. -/
def get_radarr_url (c : ServerConfig) : String :=
  pyRstripSlash c.radarrUrl ++ c.radarrBasePath

/-- `get_sonarr_url`: rstrip the base url and append the base path. -/
def get_sonarr_url (c : ServerConfig) : String :=
  pyRstripSlash c.sonarrUrl ++ c.sonarrBasePath

inductive HttpMethod where
  | get | post | put | delete
deriving Repr, DecidableEq

/-- The network request a client function is about to issue: url, method,
auth injection strategy (header key or query-parameter key), query params,
optional JSON body and the fixed 30 second timeout. -/
structure HttpCall where
  method : HttpMethod
  url : String
  headerApiKey : Option String
  queryApiKey : Option String
  params : List (String × Json)
  body : Option Json
  timeoutSecs : Nat
deriving Repr, DecidableEq

/-- What a client-layer function does before any response arrives: either
it raises a configuration error without touching the network, or it issues
exactly one HTTP call. -/
inductive CallPlan where
  | configError (msg : String)
  | call (c : HttpCall)
deriving Repr, DecidableEq

/-- Is the plan a fail-fast configuration error? -/
def CallPlan.isConfigError : CallPlan → Bool
  | .configError _ => true
  | .call _ => false

/-- `make_radarr_request`: checks the API key, then issues one request with
the key in the X-Api-Key header. -/
def make_radarr_request (c : ServerConfig) (endpoint : String)
    (params : List (String × Json)) (method : HttpMethod) (jsonData : Option Json) :
    CallPlan :=
  if c.radarrApiKey.length = 0 then
    .configError "Radarr API key not configured"
  else
    .call {
      method := method
      url := get_radarr_url c ++ "/" ++ pyLstripSlash endpoint
      headerApiKey := some c.radarrApiKey
      queryApiKey := none
      params := params
      body := jsonData
      timeoutSecs := 30 }

/-- `make_sonarr_request`: checks the API key, then issues one request with
the key in the X-Api-Key header. -/
def make_sonarr_request (c : ServerConfig) (endpoint : String)
    (params : List (String × Json)) (method : HttpMethod) (jsonData : Option Json) :
    CallPlan :=
  if c.sonarrApiKey.length = 0 then
    .configError "Sonarr API key not configured"
  else
    .call {
      method := method
      url := get_sonarr_url c ++ "/" ++ pyLstripSlash endpoint
      headerApiKey := some c.sonarrApiKey
      queryApiKey := none
      params := params
      body := jsonData
      timeoutSecs := 30 }

/-- The `delete_radarr_movie` branch of `handle_call_tool`: it builds the
DELETE request inline, with no API key check. -/
def delete_radarr_movie_plan (c : ServerConfig) (movieId : Int)
    (deleteFiles addImportExclusion : Bool) : CallPlan :=
  .call {
    method := .delete
    url := get_radarr_url c ++ "/movie/" ++ toString movieId
    headerApiKey := some c.radarrApiKey
    queryApiKey := none
    params := [("deleteFiles", .bool deleteFiles),
               ("addImportExclusion", .bool addImportExclusion)]
    body := none
    timeoutSecs := 30 }

/-- The `delete_sonarr_series` branch of `handle_call_tool`: it builds the
DELETE request inline, with no API key check. -/
def delete_sonarr_series_plan (c : ServerConfig) (seriesId : Int)
    (deleteFiles addImportListExclusion : Bool) : CallPlan :=
  .call {
    method := .delete
    url := get_sonarr_url c ++ "/series/" ++ toString seriesId
    headerApiKey := some c.sonarrApiKey
    queryApiKey := none
    params := [("deleteFiles", .bool deleteFiles),
               ("addImportListExclusion", .bool addImportListExclusion)]
    body := none
    timeoutSecs := 30 }

/-- `SonarrService.get_all_series` (services/sonarr_service.py): the legacy
query-parameter-key client issues its GET with `apikey` in the query string
and performs no API key check. -/
def sonarr_service_get_all_series_plan (baseUrl apiKey : String) : CallPlan :=
  .call {
    method := .get
    url := baseUrl ++ "/series"
    headerApiKey := none
    queryApiKey := some apiKey
    params := []
    body := none
    timeoutSecs := 30 }

/-! ## Legacy service data model (services/) -/

/-- `Statistics` dataclass (services/sonarr_service.py), fields defaulting
to 0 in `from_dict`. -/
structure Statistics where
  episode_file_count : Int
  episode_count : Int
  total_episode_count : Int
  size_on_disk : Int
deriving Repr, DecidableEq

/-- `Series` dataclass (services/sonarr_service.py): `statistics` is `None`
when the raw payload has no statistics key. -/
structure Series where
  id : Int
  title : String
  year : Option Int
  overview : String
  status : String
  network : String
  tags : List Int
  genres : List String
  statistics : Option Statistics
  data : Dict
deriving Repr, DecidableEq

/-- `Movie` dataclass (services/radarr_service.py). -/
structure Movie where
  id : Int
  title : String
  year : Int
  overview : String
  has_file : Bool
  status : String
  tags : List Int
  genres : List String
  data : Dict
deriving Repr, DecidableEq

/-- `SonarrService.is_series_watched`: `False` when statistics is `None`,
otherwise all-episodes-downloaded as the watched proxy. -/
def SonarrService.is_series_watched (s : Series) : Bool :=
  match s.statistics with
  | none => false
  | some st => decide (st.episode_count ≤ st.episode_file_count)

/-- `RadarrService.is_movie_watched`: reads the nested
`movieFile.mediaInfo.watched` flag of the raw payload, defaulting each
level; the result is whatever JSON value is stored there. -/
def RadarrService.is_movie_watched (m : Movie) : Except PyErr Json := do
  let mf := dgetD m.data "movieFile" (.obj [])
  let mi ← jsonGet mf "mediaInfo" (.obj [])
  jsonGet mi "watched" (.bool false)

/-! ## Watch providers (services/plex_service.py, services/jellyfin_service.py) -/

/-- Outcome of one HTTP exchange as seen by a provider client: either the
transport failed (timeout, connection error), or a response arrived with a
status code and a body that may or may not parse as JSON. -/
inductive HttpResult where
  | netError
  | response (status : Nat) (body : Option Json)
deriving Repr, DecidableEq

/-- `requests` raises on `raise_for_status` exactly for 4xx and 5xx. -/
def statusRaises (status : Nat) : Bool :=
  decide (400 ≤ status) && decide (status < 600)

/-- `PlexService.search_series`: the GET itself is outside the try block so
transport errors propagate; everything after (JSON parse and the two `.get`
steps) is wrapped in `except Exception: return []`. -/
def plexSearchSeries (h : HttpResult) : Except PyErr Json :=
  match h with
  | .netError => .error .netError
  | .response _ body =>
    match body with
    | none => .ok (.arr [])
    | some j =>
      match (do
        let mc ← jsonGet j "MediaContainer" (.obj [])
        jsonGet mc "Metadata" (.arr [])) with
      | .ok v => .ok v
      | .error _ => .ok (.arr [])

/-- `PlexService.get_episodes_for_series`: same structure as the search. -/
def plexGetEpisodes (h : HttpResult) : Except PyErr Json :=
  match h with
  | .netError => .error .netError
  | .response _ body =>
    match body with
    | none => .ok (.arr [])
    | some j =>
      match (do
        let mc ← jsonGet j "MediaContainer" (.obj [])
        jsonGet mc "Metadata" (.arr [])) with
      | .ok v => .ok v
      | .error _ => .ok (.arr [])

/-- `JellyfinService.search_series`: no try block at all; transport errors
propagate, `raise_for_status` raises on 4xx/5xx, and a malformed body makes
`response.json()` raise. -/
def jellyfinSearchSeries (h : HttpResult) : Except PyErr Json :=
  match h with
  | .netError => .error .netError
  | .response st body =>
    if statusRaises st then .error (.httpError st)
    else
      match body with
      | none => .error .valueError
      | some j => jsonGet j "Items" (.arr [])

/-- `JellyfinService.get_episodes_for_series`: same structure as the search. -/
def jellyfinGetEpisodes (h : HttpResult) : Except PyErr Json :=
  match h with
  | .netError => .error .netError
  | .response st body =>
    if statusRaises st then .error (.httpError st)
    else
      match body with
      | none => .error .valueError
      | some j => jsonGet j "Items" (.arr [])

/-- Body of the `all(...)` generator in `PlexService.is_series_watched`:
`ep.get("UserData", {}).get("viewCount", 0) > 0`. -/
def plexEpisodeWatched (ep : Json) : Except PyErr Bool := do
  let ud ← jsonGet ep "UserData" (.obj [])
  let vc ← jsonGet ud "viewCount" (.num 0)
  pyGtInt vc 0

/-- `PlexService.is_series_watched`, parameterised by the results of the
two HTTP helper methods it invokes (`search` is the value returned by
`search_series`, `getEps` maps a rating key to the value returned by
`get_episodes_for_series`). -/
def plexIsSeriesWatched (search : Except PyErr Json)
    (getEps : Json → Except PyErr Json) : Except PyErr Bool := do
  let items ← search
  if !pyTruthy items then
    pure false
  else do
    let seriesItem ← pyIndexZero items
    let ratingKey ← jsonGet seriesItem "ratingKey" .null
    let episodesJ ← getEps ratingKey
    if !pyTruthy episodesJ then
      pure false
    else do
      let episodes ← pyIter episodesJ
      pyAllM plexEpisodeWatched episodes

/-- Body of the `all(...)` generator in `JellyfinService.is_series_watched`:
`ep.get("UserData", {}).get("PlayCount", 0) > 0`. -/
def jellyfinEpisodeWatched (ep : Json) : Except PyErr Bool := do
  let ud ← jsonGet ep "UserData" (.obj [])
  let pc ← jsonGet ud "PlayCount" (.num 0)
  pyGtInt pc 0

/-- `JellyfinService.is_series_watched`, parameterised the same way. -/
def jellyfinIsSeriesWatched (search : Except PyErr Json)
    (getEps : Json → Except PyErr Json) : Except PyErr Bool := do
  let items ← search
  if !pyTruthy items then
    pure false
  else do
    let seriesItem ← pyIndexZero items
    let seriesId ← jsonGet seriesItem "Id" .null
    let episodesJ ← getEps seriesId
    if !pyTruthy episodesJ then
      pure false
    else do
      let episodes ← pyIter episodesJ
      pyAllM jellyfinEpisodeWatched episodes

/-- `PlexService.is_series_watched` composed with its transport layer:
`hSearch` is the HTTP outcome of the search, `hEps` the HTTP outcome of the
episodes request for a given rating key. -/
def plexIsSeriesWatchedHttp (hSearch : HttpResult) (hEps : Json → HttpResult) :
    Except PyErr Bool :=
  plexIsSeriesWatched (plexSearchSeries hSearch) (fun rk => plexGetEpisodes (hEps rk))

/-- `JellyfinService.is_series_watched` composed with its transport layer. -/
def jellyfinIsSeriesWatchedHttp (hSearch : HttpResult) (hEps : Json → HttpResult) :
    Except PyErr Bool :=
  jellyfinIsSeriesWatched (jellyfinSearchSeries hSearch) (fun sid => jellyfinGetEpisodes (hEps sid))

/-- Modelled from the spec: the watched-status resolver that combines the
configured providers is not in src/ (only the provider services and a stale
test referencing an older server module exist).  Spec section 4.3 steps 5
and 7: each configured provider yields a verdict computation, a provider
failure counts as no verdict, and the verdicts are combined with logical
OR. -/
def isWatchedResolver (verdicts : List (Except PyErr Bool)) : Bool :=
  verdicts.any (fun v =>
    match v with
    | .ok b => b
    | .error _ => false)

/-! ## List, search and detail branches (server.py handle_call_tool) and
response_formatter.py -/

/-- The `\x7b"count": ..., "movies"/"series": [...]\x7d` result dict built by the
list branches. -/
structure MediaList where
  count : Nat
  items : List Dict
deriving Repr, DecidableEq

/-- The overview expression of the list normalizers:
`m.get("overview", "")[:200] + "..." if len(m.get("overview", "")) > 200
else m.get("overview", "")`. -/
def truncatedOverview (m : Dict) : Except PyErr Json := do
  let ov := dgetD m "overview" (.str "")
  let n ← pyLen ov
  if 200 < n then
    match ov with
    | .str s => .ok (.str (s.take 200 ++ "..."))
    | _ => .error .typeError
  else
    .ok ov

/-- The per-movie dict built inside the `get_radarr_movies` branch. -/
def normRadarrMovie (m : Dict) : Except PyErr Dict := do
  let ov ← truncatedOverview m
  .ok [("id", dgetD m "id" .null),
       ("title", dgetD m "title" .null),
       ("year", dgetD m "year" .null),
       ("monitored", dgetD m "monitored" .null),
       ("hasFile", dgetD m "hasFile" (.bool false)),
       ("status", dgetD m "status" .null),
       ("overview", ov)]

/-- The `get_radarr_movies` branch after the backend response arrived:
apply the two optional filters, then build the result dict with the total
count and at most 50 normalized movies. -/
def getRadarrMoviesResult (movies : List Dict)
    (monitoredArg downloadedArg : Option Bool) : Except PyErr MediaList := do
  let movies := match monitoredArg with
    | some b => movies.filter (fun m => pyEqBool (dgetD m "monitored" Json.null) b)
    | none => movies
  let movies := match downloadedArg with
    | some b => movies.filter (fun m => pyEqBool (dgetD m "hasFile" (Json.bool false)) b)
    | none => movies
  let items ← (movies.take 50).mapM normRadarrMovie
  .ok { count := movies.length, items := items }

/-- One item line of `_format_media_list`. -/
def mediaListItemLine (isRadarr : Bool) (item : Dict) : String :=
  let title := pyStr (dgetD item "title" (.str "Unknown"))
  let year := pyStr (dgetD item "year" (.str "Unknown"))
  let itemId := pyStr (dgetD item "id" (.str "?"))
  if isRadarr then
    "  [" ++ itemId ++ "] " ++ title ++ " (" ++ year ++ ") - TMDB: " ++
      pyStr (dgetD item "tmdbId" (.str "?"))
  else
    "  [" ++ itemId ++ "] " ++ title ++ " (" ++ year ++ ") - " ++
      pyStr (dgetD item "episodeFileCount" (.num 0)) ++ "/" ++
      pyStr (dgetD item "episodeCount" (.num 0))

/-- The line list built by `_format_media_list`: header with the count
field, one line per displayed item, and the more-marker exactly when the
count exceeds the number of displayed items. -/
def formatMediaListLines (isRadarr : Bool) (r : MediaList) : List String :=
  (toString r.count ++ " " ++ (if isRadarr then "movies" else "series") ++ ":") ::
    r.items.map (mediaListItemLine isRadarr) ++
    (if r.items.length < r.count then
      ["  ... " ++ toString (r.count - r.items.length) ++ " more"]
    else [])

/-- `_format_media_list` (response_formatter.py). -/
def formatMediaList (isRadarr : Bool) (r : MediaList) : String :=
  if r.items.isEmpty then
    "No " ++ (if isRadarr then "movies" else "series") ++ " found."
  else
    String.intercalate "\n" (formatMediaListLines isRadarr r)

/-- The caller-visible text of the `get_radarr_movies` tool: the branch
result passed through `format_response`. -/
def getRadarrMoviesFormatted (movies : List Dict)
    (monitoredArg downloadedArg : Option Bool) : Except PyErr String :=
  (getRadarrMoviesResult movies monitoredArg downloadedArg).map (formatMediaList true)

/-- `s.get("statistics", \x7b\x7d).get(key, 0)` of the `get_sonarr_series`
branch. -/
def sonarrSeriesStat (s : Dict) (key : String) : Except PyErr Json :=
  jsonGet (dgetD s "statistics" (.obj [])) key (.num 0)

/-- The `get_sonarr_series` branch: filters, then an inline formatted
string with the total count in the header, at most 50 item lines and the
more-marker when more than 50 series matched. -/
def getSonarrSeriesOutput (series : List Dict)
    (monitoredArg downloadedArg : Option Bool) : Except PyErr String := do
  let series := match monitoredArg with
    | some b => series.filter (fun s => pyEqBool (dgetD s "monitored" Json.null) b)
    | none => series
  let series ← match downloadedArg with
    | some b => pyFilterM (fun s => do
        let v ← sonarrSeriesStat s "episodeFileCount"
        let gt ← pyGtInt v 0
        pure (gt == b)) series
    | none => pure series
  if series.isEmpty then
    pure "No series found."
  else do
    let itemLines ← (series.take 50).mapM (fun s => do
      let epCount ← sonarrSeriesStat s "episodeFileCount"
      let totalEps ← sonarrSeriesStat s "episodeCount"
      pure ("  " ++ pyStr (dgetD s "title" (.str "Unknown")) ++ " (" ++
        pyStr (dgetD s "year" (.str "Unknown")) ++ ") - " ++
        pyStr epCount ++ "/" ++ pyStr totalEps))
    let lines := (toString series.length ++ " series:") :: itemLines ++
      (if 50 < series.length then
        ["  ... " ++ toString (series.length - 50) ++ " more"]
      else [])
    pure (String.intercalate "\n" lines)

/-- The line list of the `search_radarr_movies` branch: header with the
total count, at most 20 item lines, and no more-marker at all. -/
def searchRadarrMoviesLines (movies : List Dict) : List String :=
  ("Found " ++ toString movies.length ++ " movies in search:") ::
    (movies.take 20).map (fun m =>
      "  " ++ pyStr (dgetD m "title" (.str "Unknown")) ++ " (" ++
        pyStr (dgetD m "year" (.str "Unknown")) ++ ") - ID: " ++
        pyStr (dgetD m "tmdbId" Json.null))

/-- The `search_radarr_movies` branch after the lookup response arrived. -/
def searchRadarrMoviesOutput (movies : List Dict) : String :=
  if movies.isEmpty then "No movies found in search."
  else String.intercalate "\n" (searchRadarrMoviesLines movies)

/-- The line list of the `search_sonarr_series` branch. -/
def searchSonarrSeriesLines (series : List Dict) : List String :=
  ("Found " ++ toString series.length ++ " series in search:") ::
    (series.take 20).map (fun s =>
      "  " ++ pyStr (dgetD s "title" (.str "Unknown")) ++ " (" ++
        pyStr (dgetD s "year" (.str "Unknown")) ++ ") - ID: " ++
        pyStr (dgetD s "tvdbId" Json.null))

/-- The `search_sonarr_series` branch after the lookup response arrived. -/
def searchSonarrSeriesOutput (series : List Dict) : String :=
  if series.isEmpty then "No series found in search."
  else String.intercalate "\n" (searchSonarrSeriesLines series)

/-- The result dict built by the `get_radarr_movie_by_id` branch: the
overview is carried over untruncated. -/
def getRadarrMovieByIdResult (movie : Dict) : Dict :=
  [("movie", .obj [
    ("id", dgetD movie "id" .null),
    ("title", dgetD movie "title" .null),
    ("year", dgetD movie "year" .null),
    ("tmdbId", dgetD movie "tmdbId" .null),
    ("imdbId", dgetD movie "imdbId" .null),
    ("overview", dgetD movie "overview" .null),
    ("status", dgetD movie "status" .null),
    ("monitored", dgetD movie "monitored" .null),
    ("hasFile", dgetD movie "hasFile" (.bool false)),
    ("qualityProfileId", dgetD movie "qualityProfileId" .null),
    ("minimumAvailability", dgetD movie "minimumAvailability" .null),
    ("rootFolderPath", dgetD movie "rootFolderPath" .null),
    ("path", dgetD movie "path" .null),
    ("runtime", dgetD movie "runtime" .null),
    ("genres", dgetD movie "genres" (.arr [])),
    ("ratings", dgetD movie "ratings" (.obj [])),
    ("sizeOnDisk", dgetD movie "sizeOnDisk" (.num 0)),
    ("tags", dgetD movie "tags" (.arr []))])]

/-- `_format_media_details` (response_formatter.py): the overview is added
to the output only when it is truthy AND shorter than 200 characters. -/
def formatMediaDetails (isRadarr : Bool) (result : Dict) : Except PyErr String := do
  let item := dgetD result (if isRadarr then "movie" else "series") (.obj [])
  if !pyTruthy item then
    pure ("No " ++ (if isRadarr then "movie" else "series") ++ " details found.")
  else do
    let title ← jsonGet item "title" (.str "Unknown")
    let year ← jsonGet item "year" (.str "Unknown")
    let status ← jsonGet item "status" (.str "Unknown")
    let monitoredJ ← jsonGet item "monitored" (.bool false)
    let hasFileJ ← jsonGet item "hasFile" (.bool false)
    let lines := ["**" ++ pyStr title ++ " (" ++ pyStr year ++ ")**",
                  "Status: " ++ pyStr status,
                  "Monitored: " ++ (if pyTruthy monitoredJ then "Yes" else "No"),
                  "Downloaded: " ++ (if pyTruthy hasFileJ then "Yes" else "No")]
    let lines ← (if isRadarr then pure lines else do
      let seasonCount ← jsonGet item "seasonCount" (.num 0)
      let epCount ← jsonGet item "episodeFileCount" (.num 0)
      let totalEps ← jsonGet item "totalEpisodeCount" (.num 0)
      pure (lines ++ ["Seasons: " ++ pyStr seasonCount,
                      "Episodes: " ++ pyStr epCount ++ "/" ++ pyStr totalEps]))
    let overview ← jsonGet item "overview" (.str "")
    let addOverview ← (if pyTruthy overview then do
      let n ← pyLen overview
      pure (decide (n < 200))
    else pure false)
    let lines := lines ++ (if addOverview then ["Overview: " ++ pyStr overview] else [])
    pure (String.intercalate "\n" lines)

/-- The caller-visible text of the `get_radarr_movie_by_id` tool: the
detail dict passed through `format_response`. -/
def getRadarrMovieByIdFormatted (movie : Dict) : Except PyErr String :=
  formatMediaDetails true (getRadarrMovieByIdResult movie)

/-! ## Queue progress and disk space (response_formatter.py,
handlers_extended.py) -/

/-- The per-item progress computation of `_format_download_queue`:
`if size > 0` guards the division, otherwise progress stays blank
(`none`). -/
def queueItemProgress (item : Dict) : Except PyErr (Option ℚ) := do
  let size := dgetD item "size" (.num 0)
  let sizeLeft := dgetD item "sizeleft" (.num 0)
  let positive ← pyGtInt size 0
  if positive then
    let s ← pyToRat size
    let l ← pyToRat sizeLeft
    .ok (some ((s - l) / s * 100))
  else
    .ok none

/-- Round-half-to-even on an exact rational, as Python `round` behaves on
values it represents exactly (the claims only use such values). -/
def pyRoundHalfEven (x : ℚ) : ℤ :=
  let f := Int.floor x
  let r := x - f
  if r < 1 / 2 then f
  else if 1 / 2 < r then f + 1
  else if Even f then f else f + 1

/-- Python `round(x, 2)` on an exact rational. -/
def pyRound2 (x : ℚ) : ℚ :=
  (pyRoundHalfEven (x * 100) : ℚ) / 100

/-- The `percentUsed` expression of `handle_disk_space`:
`round((1 - disk.get("freeSpace", 0) / disk.get("totalSpace", 1)) * 100, 2)`.
The divisor defaults to 1 only when the key is absent; a present zero
raises ZeroDivisionError. -/
def diskPercentUsed (disk : Dict) : Except PyErr ℚ := do
  let free ← pyToRat (dgetD disk "freeSpace" (.num 0))
  let total ← pyToRat (dgetD disk "totalSpace" (.num 1))
  if total = 0 then .error .zeroDivisionError
  else .ok (pyRound2 ((1 - free / total) * 100))

/-- One entry of the `handle_disk_space` per-disk comprehension; the
derived percentage is kept as an exact rational alongside the copied JSON
fields. -/
structure DiskEntry where
  path : Json
  label : Json
  freeSpace : Json
  totalSpace : Json
  percentUsed : ℚ
deriving Repr, DecidableEq

/-- The per-disk comprehension body of `handle_disk_space`. -/
def diskEntry (disk : Dict) : Except PyErr DiskEntry := do
  let pct ← diskPercentUsed disk
  .ok { path := dgetD disk "path" .null
        label := dgetD disk "label" .null
        freeSpace := dgetD disk "freeSpace" (.num 0)
        totalSpace := dgetD disk "totalSpace" (.num 0)
        percentUsed := pct }

/-- The whole per-service comprehension of `handle_disk_space`: one entry
per disk of the backend response, errors propagating. -/
def handleDiskSpaceEntries (disks : List Dict) : Except PyErr (List DiskEntry) :=
  disks.mapM diskEntry

/-! ## Read-modify-write updates (server.py update branches) -/

/-- Python `d[k] = v`: replace in place when the key exists, append
otherwise. -/
def dictSet : Dict → String → Json → Dict
  | [], k, v => [(k, v)]
  | (k0, v0) :: rest, k, v =>
    if k0 == k then (k0, v) :: rest else (k0, v0) :: dictSet rest k v

/-- One `if "field" in arguments: existing["field"] = arguments["field"]`
line of the update branches. -/
def setIfSupplied (e : Dict) (kf : String) (o : Option Json) : Dict :=
  match o with
  | some v => dictSet e kf v
  | none => e

/-- The optional fields of the `update_radarr_movie` tool (its schema
forbids any other property besides the required `id`). -/
structure UpdateRadarrArgs where
  monitored : Option Json
  qualityProfileId : Option Json
  minimumAvailability : Option Json
  tags : Option Json
deriving Repr, DecidableEq

/-- The merged entity the `update_radarr_movie` branch writes back: the
freshly fetched movie with exactly the supplied fields overwritten, in
source order. -/
def update_radarr_movie_merged (existing : Dict) (a : UpdateRadarrArgs) : Dict :=
  let e := setIfSupplied existing "monitored" a.monitored
  let e := setIfSupplied e "qualityProfileId" a.qualityProfileId
  let e := setIfSupplied e "minimumAvailability" a.minimumAvailability
  setIfSupplied e "tags" a.tags

/-- The optional fields of the `update_sonarr_series` tool. -/
structure UpdateSonarrArgs where
  monitored : Option Json
  qualityProfileId : Option Json
  seriesType : Option Json
  seasonFolder : Option Json
  tags : Option Json
deriving Repr, DecidableEq

/-- The merged entity the `update_sonarr_series` branch writes back. -/
def update_sonarr_series_merged (existing : Dict) (a : UpdateSonarrArgs) : Dict :=
  let e := setIfSupplied existing "monitored" a.monitored
  let e := setIfSupplied e "qualityProfileId" a.qualityProfileId
  let e := setIfSupplied e "seriesType" a.seriesType
  let e := setIfSupplied e "seasonFolder" a.seasonFolder
  setIfSupplied e "tags" a.tags

/-- Which value, if any, the `update_radarr_movie` arguments supply for a
given entity key. -/
def radarrSuppliedField (a : UpdateRadarrArgs) (k : String) : Option Json :=
  if k = "monitored" then a.monitored
  else if k = "qualityProfileId" then a.qualityProfileId
  else if k = "minimumAvailability" then a.minimumAvailability
  else if k = "tags" then a.tags
  else none

/-- Which value, if any, the `update_sonarr_series` arguments supply for a
given entity key. -/
def sonarrSuppliedField (a : UpdateSonarrArgs) (k : String) : Option Json :=
  if k = "monitored" then a.monitored
  else if k = "qualityProfileId" then a.qualityProfileId
  else if k = "seriesType" then a.seriesType
  else if k = "seasonFolder" then a.seasonFolder
  else if k = "tags" then a.tags
  else none

/-! ## Well-formed backend payloads

The claims quantify over backend responses; these records generate the
dict shapes the two backends actually return. -/

/-- A well-formed raw movie record as returned by the movie backend. -/
structure MovieRec where
  id : Int
  title : String
  year : Int
  monitored : Bool
  hasFile : Bool
  status : String
  overview : String
  tmdbId : Int
deriving Repr, DecidableEq

/-- The raw JSON dict for a movie record. -/
def movieDict (r : MovieRec) : Dict :=
  [("id", .num r.id), ("title", .str r.title), ("year", .num r.year),
   ("monitored", .bool r.monitored), ("hasFile", .bool r.hasFile),
   ("status", .str r.status), ("overview", .str r.overview),
   ("tmdbId", .num r.tmdbId)]

/-- A well-formed raw series record as returned by the series backend. -/
structure SeriesRec where
  title : String
  year : Int
  monitored : Bool
  tvdbId : Int
  epFileCount : Int
  epCount : Int
deriving Repr, DecidableEq

/-- The raw JSON dict for a series record, statistics included. -/
def seriesDict (r : SeriesRec) : Dict :=
  [("title", .str r.title), ("year", .num r.year),
   ("monitored", .bool r.monitored), ("tvdbId", .num r.tvdbId),
   ("statistics", .obj [("episodeFileCount", .num r.epFileCount),
                        ("episodeCount", .num r.epCount)])]

/-- Does a movie record match the two optional filters of the movie list
tool (conjunctive, absent filter never excludes)? -/
def movieMatches (r : MovieRec) (monitoredArg downloadedArg : Option Bool) : Bool :=
  (match monitoredArg with
   | some b => r.monitored == b
   | none => true) &&
  (match downloadedArg with
   | some b => r.hasFile == b
   | none => true)

/-- Does a series record match the two optional filters of the series list
tool? -/
def seriesMatches (r : SeriesRec) (monitoredArg downloadedArg : Option Bool) : Bool :=
  (match monitoredArg with
   | some b => r.monitored == b
   | none => true) &&
  (match downloadedArg with
   | some b => decide (0 < r.epFileCount) == b
   | none => true)

/-- The list-response truncation of an overview string. -/
def truncStr (s : String) : String :=
  if 200 < s.length then s.take 200 ++ "..." else s

/-- The normalized movie dict the radarr list branch produces for a
well-formed movie record. -/
def normMovieRecItem (r : MovieRec) : Dict :=
  [("id", .num r.id), ("title", .str r.title), ("year", .num r.year),
   ("monitored", .bool r.monitored), ("hasFile", .bool r.hasFile),
   ("status", .str r.status), ("overview", .str (truncStr r.overview))]

/-- The displayed line of a movie record in the formatted movie list. -/
def movieLineExpected (r : MovieRec) : String :=
  "  [" ++ toString r.id ++ "] " ++ r.title ++ " (" ++ toString r.year ++
    ") - TMDB: ?"

/-- The displayed line of a series record in the formatted series list. -/
def seriesLineExpected (r : SeriesRec) : String :=
  "  " ++ r.title ++ " (" ++ toString r.year ++ ") - " ++
    toString r.epFileCount ++ "/" ++ toString r.epCount

/-- The displayed line of a movie record in the movie search output. -/
def searchMovieLineExpected (r : MovieRec) : String :=
  "  " ++ r.title ++ " (" ++ toString r.year ++ ") - ID: " ++ toString r.tmdbId

/-- The displayed line of a series record in the series search output. -/
def searchSeriesLineExpected (r : SeriesRec) : String :=
  "  " ++ r.title ++ " (" ++ toString r.year ++ ") - ID: " ++ toString r.tvdbId

/-! ## Spec-side comparison definitions and concrete inputs -/

/-- Removing exactly one trailing slash, as the spec words the URL
construction; compared against the rstrip-based source behaviour. -/
def trimOneTrailingSlash (s : String) : String :=
  if s.data.getLast? = some '/' then String.mk s.data.dropLast else s

/-- A config whose API keys are both empty. -/
def cfgNoKeys : ServerConfig :=
  { radarrApiKey := "", radarrUrl := "http://localhost:7878", radarrBasePath := "/api/v3",
    sonarrApiKey := "", sonarrUrl := "http://localhost:8989", sonarrBasePath := "/api/v3" }

/-- A config whose radarr base URL ends in two slashes. -/
def cfgDoubleSlash : ServerConfig :=
  { radarrApiKey := "k", radarrUrl := "http://h//", radarrBasePath := "/api/v3",
    sonarrApiKey := "k", sonarrUrl := "http://h//", sonarrBasePath := "/api/v3" }

/-- A movie whose raw payload stores a positive watched flag under
`movieFile.mediaInfo.watched`. -/
def c2CexMovie : Movie :=
  { id := 1, title := "m", year := 2000, overview := "", has_file := true,
    status := "downloaded", tags := [], genres := [],
    data := [("id", .num 1), ("title", .str "m"),
             ("movieFile", .obj [("mediaInfo", .obj [("watched", .bool true)])])] }

/-- A fully downloaded series: five episodes, five files. -/
def c2WitnessSeries : Series :=
  { id := 1, title := "s", year := some 2000, overview := "", status := "ended",
    network := "", tags := [], genres := [],
    statistics := some { episode_file_count := 5, episode_count := 5,
                         total_episode_count := 5, size_on_disk := 1000 },
    data := [] }

/-- A 250-character overview. -/
def ovLong : String := String.mk (List.replicate 250 'a')

/-- A raw movie payload whose only field is the long overview. -/
def c7CexMovie : Dict := [("overview", .str ovLong)]

/-- One of 21 identical well-formed movies for the search-cap input. -/
def c1CexMovieRec : MovieRec :=
  { id := 1, title := "A", year := 2000, monitored := true, hasFile := true,
    status := "released", overview := "", tmdbId := 7 }

/-- 21 raw movies, one more than the search display cap. -/
def c1CexMovies : List Dict := List.replicate 21 (movieDict c1CexMovieRec)

/-- The caller-visible formatted detail of a well-formed movie payload:
the overview line appears only when the overview is non-empty and shorter
than 200 characters. -/
def movieDetailExpected (r : MovieRec) : String :=
  String.intercalate "\n"
    (["**" ++ r.title ++ " (" ++ toString r.year ++ ")**",
      "Status: " ++ r.status,
      "Monitored: " ++ (if r.monitored then "Yes" else "No"),
      "Downloaded: " ++ (if r.hasFile then "Yes" else "No")] ++
      (if r.overview.length ≠ 0 ∧ r.overview.length < 200 then
        ["Overview: " ++ r.overview]
      else []))

deriving instance DecidableEq for Except
deriving instance DecidableEq for HttpResult

/-- The output the movie list tool must produce for a well-formed backend
response: total matched count in the header, at most 50 displayed lines,
and the more-marker exactly when more than 50 matched. -/
def radarrListExpected (xs : List MovieRec) (ma da : Option Bool) : String :=
  let matched := xs.filter (fun r => movieMatches r ma da)
  if matched.isEmpty then "No movies found."
  else
    String.intercalate "\n"
      ((toString matched.length ++ " movies:") ::
        (matched.take 50).map movieLineExpected ++
        (if 50 < matched.length then
          ["  ... " ++ toString (matched.length - 50) ++ " more"]
        else []))

/-- The output the series list tool must produce for a well-formed backend
response. -/
def sonarrListExpected (xs : List SeriesRec) (ma da : Option Bool) : String :=
  let matched := xs.filter (fun r => seriesMatches r ma da)
  if matched.isEmpty then "No series found."
  else
    String.intercalate "\n"
      ((toString matched.length ++ " series:") ::
        (matched.take 50).map seriesLineExpected ++
        (if 50 < matched.length then
          ["  ... " ++ toString (matched.length - 50) ++ " more"]
        else []))

/-- The output the movie search tool produces: total count in the header,
at most 20 displayed lines, and never a more-marker. -/
def radarrSearchExpected (xs : List MovieRec) : String :=
  if xs.isEmpty then "No movies found in search."
  else
    String.intercalate "\n"
      (("Found " ++ toString xs.length ++ " movies in search:") ::
        (xs.take 20).map searchMovieLineExpected)

/-- The output the series search tool produces. -/
def sonarrSearchExpected (xs : List SeriesRec) : String :=
  if xs.isEmpty then "No series found in search."
  else
    String.intercalate "\n"
      (("Found " ++ toString xs.length ++ " series in search:") ::
        (xs.take 20).map searchSeriesLineExpected)

/-! ## Helper lemmas -/

theorem filter_map_eq_map_filter {α β : Type} (f : α → β) (p : β → Bool) (q : α → Bool)
    (h : ∀ a, p (f a) = q a) :
    ∀ l : List α, (l.map f).filter p = (l.filter q).map f := by
  intro l
  induction l with
  | nil => rfl
  | cons x xs ih =>
    simp only [List.map_cons, List.filter_cons, h x]
    cases q x <;> simp [ih]

theorem filter_filter_and {α : Type} (p q : α → Bool) :
    ∀ l : List α, (l.filter p).filter q = l.filter (fun a => p a && q a) := by
  intro l
  induction l with
  | nil => rfl
  | cons x xs ih =>
    simp only [List.filter_cons]
    cases hp : p x <;> cases hq : q x <;> simp [List.filter_cons, hp, hq, ih]

theorem mapM_ok_of_map {α β γ : Type} (f : α → β) (g : β → Except PyErr γ)
    (h : α → γ) (hok : ∀ a, g (f a) = .ok (h a)) :
    ∀ l : List α, (l.map f).mapM g = .ok (l.map h) := by
  intro l
  induction l with
  | nil => rfl
  | cons x xs ih =>
    simp only [List.map_cons, List.mapM_cons, hok x, ih]
    rfl

theorem pyFilterM_map_ok {α β : Type} (f : α → β) (p : β → Except PyErr Bool)
    (q : α → Bool) (h : ∀ a, p (f a) = .ok (q a)) :
    ∀ l : List α, pyFilterM p (l.map f) = .ok ((l.filter q).map f) := by
  intro l
  induction l with
  | nil => rfl
  | cons x xs ih =>
    simp only [List.map_cons, pyFilterM, h x, ih, List.filter_cons]
    cases q x <;> rfl

theorem pyAllM_ok_true_forall {α : Type} (f : α → Except PyErr Bool) :
    ∀ l : List α, pyAllM f l = .ok true → ∀ x ∈ l, f x = .ok true := by
  intro l
  induction l with
  | nil => intro _ x hx; cases hx
  | cons y ys ih =>
    intro hall x hx
    simp only [pyAllM] at hall
    cases hf : f y with
    | error e => rw [hf] at hall; cases hall
    | ok b =>
      rw [hf] at hall
      cases b with
      | false => cases hall
      | true =>
        cases hx with
        | head => exact hf
        | tail _ hx2 => exact ih hall x hx2

@[simp] theorem exceptOkBind {α β : Type} (a : α) (f : α → Except PyErr β) :
    (do let x ← (Except.ok a : Except PyErr α); f x) = f a := rfl

@[simp] theorem exceptErrorBind {α β : Type} (e : PyErr) (f : α → Except PyErr β) :
    (do let x ← (Except.error e : Except PyErr α); f x) = Except.error e := rfl

@[simp] theorem exceptPureEq {α : Type} (a : α) :
    (pure a : Except PyErr α) = Except.ok a := rfl

@[simp] theorem exceptMapOk {α β : Type} (g : α → β) (a : α) :
    (Except.ok a : Except PyErr α).map g = Except.ok (g a) := rfl

@[simp] theorem exceptMapError {α β : Type} (g : α → β) (e : PyErr) :
    (Except.error e : Except PyErr α).map g = Except.error e := rfl

@[simp] theorem dgetD_cons_self (k : String) (v : Json) (d : Dict) (dflt : Json) :
    dgetD ((k, v) :: d) k dflt = v := by
  simp [dgetD, dget, List.lookup]

@[simp] theorem dget_cons_self (k : String) (v : Json) (d : Dict) :
    dget ((k, v) :: d) k = some v := by
  simp [dget, List.lookup]

theorem dget_cons_ne (k k0 : String) (v : Json) (d : Dict) (h : (k == k0) = false) :
    dget ((k0, v) :: d) k = dget d k := by
  simp [dget, List.lookup, h]

theorem dgetD_cons_ne (k k0 : String) (v : Json) (d : Dict) (dflt : Json)
    (h : (k == k0) = false) :
    dgetD ((k0, v) :: d) k dflt = dgetD d k dflt := by
  simp [dgetD, dget_cons_ne _ _ _ _ h]

theorem dget_dictSet (d : Dict) (k k2 : String) (v : Json) :
    dget (dictSet d k v) k2 = if k2 = k then some v else dget d k2 := by
  induction d with
  | nil =>
    by_cases h : k2 = k
    · subst h; simp [dictSet, dget, List.lookup]
    · simp [dictSet, dget, List.lookup, h, beq_false_of_ne h]
  | cons p rest ih =>
    obtain ⟨k0, v0⟩ := p
    by_cases hk : k0 = k
    · subst hk
      by_cases h2 : k2 = k0
      · subst h2; simp [dictSet, dget, List.lookup]
      · simp [dictSet, dget, List.lookup, h2, beq_false_of_ne h2]
    · have hkf : (k0 == k) = false := beq_false_of_ne hk
      by_cases h2 : k2 = k0
      · subst h2
        have hne : k2 ≠ k := hk
        simp [dictSet, hkf, dget, List.lookup, hne]
      · by_cases h3 : k2 = k
        · subst h3
          simp [dictSet, hkf, dget, List.lookup, beq_false_of_ne h2]
          simpa [dget] using ih
        · simp [dictSet, hkf, dget, List.lookup, beq_false_of_ne h2, h3]
          simpa [dget, h3] using ih

theorem head_dropWhile_not {α : Type} (p : α → Bool) :
    ∀ l : List α, ∀ x, ((l.dropWhile p).head? = some x) → p x = false := by
  intro l
  induction l with
  | nil => intro x h; cases h
  | cons y ys ih =>
    intro x h
    simp only [List.dropWhile] at h
    cases hp : p y with
    | true => rw [hp] at h; exact ih x h
    | false =>
      rw [hp] at h
      simp only [List.head?_cons, Option.some.injEq] at h
      rw [← h]; exact hp

theorem rstripSlashCh_decomp (l : List Char) :
    ∃ k, l = rstripSlashCh l ++ List.replicate k '/' := by
  refine ⟨(l.reverse.takeWhile (fun c => c == '/')).length, ?_⟩
  have hsplit := List.takeWhile_append_dropWhile (fun c => c == '/') l.reverse
  have hl : l = (l.reverse.takeWhile (fun c => c == '/') ++
      l.reverse.dropWhile (fun c => c == '/')).reverse := by
    rw [hsplit, List.reverse_reverse]
  have hrep : (l.reverse.takeWhile (fun c => c == '/')) =
      List.replicate (l.reverse.takeWhile (fun c => c == '/')).length '/' := by
    apply List.eq_replicate_of_mem
    intro b hb
    have := List.mem_takeWhile_imp hb
    simpa using this
  calc l = (l.reverse.takeWhile (fun c => c == '/') ++
      l.reverse.dropWhile (fun c => c == '/')).reverse := hl
    _ = (l.reverse.dropWhile (fun c => c == '/')).reverse ++
      (l.reverse.takeWhile (fun c => c == '/')).reverse := by
        rw [List.reverse_append]
    _ = rstripSlashCh l ++ (l.reverse.takeWhile (fun c => c == '/')).reverse := rfl
    _ = rstripSlashCh l ++
        List.replicate (l.reverse.takeWhile (fun c => c == '/')).length '/' := by
        rw [← List.reverse_replicate]
        exact congrArg _ (congrArg _ hrep)

theorem rstripSlashCh_getLast (l : List Char) (c : Char)
    (h : (rstripSlashCh l).getLast? = some c) : c ≠ '/' := by
  intro hc
  subst hc
  unfold rstripSlashCh at h
  rw [List.getLast?_reverse] at h
  have := head_dropWhile_not (fun c => c == '/') l.reverse _ h
  simp at this


/-! ## Claim theorems -/

/-- C3: for every title, if any one of the configured watch providers
reports watched=true, the watched-status resolver returns true, regardless
of failures or false verdicts from the other providers (the per-provider
verdicts are combined with logical OR). -/
theorem c3_or_semantics (verdicts : List (Except PyErr Bool))
    (h : Except.ok true ∈ verdicts) : isWatchedResolver verdicts = true := by
  simp only [isWatchedResolver, List.any_eq_true]
  exact ⟨Except.ok true, h, rfl⟩

/-- C3 witness: a failing provider and a false verdict do not mask a true
verdict. -/
theorem c3_witness :
    isWatchedResolver [.error .netError, .ok false, .ok true] = true :=
  c3_or_semantics [.error .netError, .ok false, .ok true] (by decide)

/-- C4 amended: Plex provider calls propagate transport errors but swallow
malformed bodies (and parse any response regardless of status, never
raising on it), while Jellyfin provider calls propagate transport errors,
4xx/5xx statuses and malformed bodies to the caller. -/
theorem c4_amended_provider_errors :
    (plexSearchSeries .netError = .error .netError) ∧
    (∀ st, plexSearchSeries (.response st none) = .ok (.arr [])) ∧
    (∀ st body, ∃ v, plexSearchSeries (.response st body) = .ok v) ∧
    (jellyfinSearchSeries .netError = .error .netError) ∧
    (∀ st body, statusRaises st = true →
      jellyfinSearchSeries (.response st body) = .error (.httpError st)) ∧
    (∀ st, statusRaises st = false →
      jellyfinSearchSeries (.response st none) = .error .valueError) := by
  refine ⟨rfl, fun _ => rfl, ?_, rfl, ?_, ?_⟩
  · intro st body
    cases body with
    | none => exact ⟨.arr [], rfl⟩
    | some j =>
      rcases hx : (do
          let mc ← jsonGet j "MediaContainer" (.obj [])
          jsonGet mc "Metadata" (.arr [])  : Except PyErr Json) with e | v
      · exact ⟨.arr [], by simp [plexSearchSeries, hx]⟩
      · exact ⟨v, by simp [plexSearchSeries, hx]⟩
  · intro st body h
    simp [jellyfinSearchSeries, h]
  · intro st h
    simp [jellyfinSearchSeries, h]

/-- C4 witness: a 404 raises out of the Jellyfin search and is swallowed
into an empty result by the Plex search. -/
theorem c4_witness :
    jellyfinSearchSeries (.response 404 none) = .error (.httpError 404) ∧
    plexSearchSeries (.response 404 none) = .ok (.arr []) :=
  ⟨c4_amended_provider_errors.2.2.2.2.1 404 none (by decide),
   c4_amended_provider_errors.2.1 404⟩

/-- C4 counterexample: a 500 response with a perfectly well-formed body
propagates an exception out of the Jellyfin provider call and out of the
whole watched check, refuting that provider-level failures are always
swallowed inside the provider call. -/
theorem c4_counterexample :
    jellyfinSearchSeries (.response 500 (some (.obj [("Items", .arr [])]))) =
      .error (.httpError 500) ∧
    jellyfinIsSeriesWatchedHttp (.response 500 (some (.obj [("Items", .arr [])])))
      (fun _ => .response 200 (some (.obj []))) = .error (.httpError 500) := by
  exact ⟨by decide, by decide⟩

/-- C5 amended: the header-key GET/POST/PUT client helpers raise a
configuration error before any network call when the API key is empty, but
the DELETE tool branches and the legacy query-parameter-key service issue
their network call unconditionally, with no API key check. -/
theorem c5_amended_api_key_check :
    (∀ c e p m j, c.radarrApiKey = "" →
      make_radarr_request c e p m j = .configError "Radarr API key not configured") ∧
    (∀ c e p m j, c.sonarrApiKey = "" →
      make_sonarr_request c e p m j = .configError "Sonarr API key not configured") ∧
    (∀ c i df ae, (delete_radarr_movie_plan c i df ae).isConfigError = false) ∧
    (∀ c i df ae, (delete_sonarr_series_plan c i df ae).isConfigError = false) ∧
    (∀ u k, (sonarr_service_get_all_series_plan u k).isConfigError = false) := by
  refine ⟨?_, ?_, fun _ _ _ _ => rfl, fun _ _ _ _ => rfl, fun _ _ => rfl⟩
  · intro c e p m j h
    simp [make_radarr_request, h]
  · intro c e p m j h
    simp [make_sonarr_request, h]

/-- C5 witness: with an empty key the GET helper fails fast. -/
theorem c5_witness :
    make_radarr_request cfgNoKeys "movie" [] .get none =
      .configError "Radarr API key not configured" :=
  c5_amended_api_key_check.1 cfgNoKeys "movie" [] .get none rfl

/-- C5 counterexample: with the same empty-key config, the DELETE movie
branch and the legacy series service still issue their network call (no
configuration error is raised), refuting the claim for those paths. -/
theorem c5_counterexample :
    (delete_radarr_movie_plan cfgNoKeys 1 false false).isConfigError = false ∧
    (sonarr_service_get_all_series_plan "http://localhost:8989/api/v3" "").isConfigError
      = false ∧
    (make_radarr_request cfgNoKeys "movie" [] .get none).isConfigError = true :=
  ⟨rfl, rfl, rfl⟩

/-- C6 amended: the client builds the URL by removing ALL trailing slashes
from the base URL before appending the base path: one trailing slash is
removed, but so is every additional one, and the trimmed base never ends
in a slash. -/
theorem c6_amended_url_building :
    (∀ c, get_radarr_url c = pyRstripSlash c.radarrUrl ++ c.radarrBasePath) ∧
    (∀ c, get_sonarr_url c = pyRstripSlash c.sonarrUrl ++ c.sonarrBasePath) ∧
    (∀ s : String, ∃ k, s.data = (pyRstripSlash s).data ++ List.replicate k '/') ∧
    (∀ (s : String) (c : Char),
      (pyRstripSlash s).data.getLast? = some c → c ≠ '/') := by
  refine ⟨fun _ => rfl, fun _ => rfl, ?_, ?_⟩
  · intro s
    obtain ⟨k, hk⟩ := rstripSlashCh_decomp s.data
    exact ⟨k, hk⟩
  · intro s c h
    exact rstripSlashCh_getLast s.data c h

/-- C6 witness: the double-slash base URL decomposes into its trimmed part
plus slashes, and its trimmed part ends in a non-slash. -/
theorem c6_witness :
    (∃ k, ("http://h//" : String).data =
      (pyRstripSlash "http://h//").data ++ List.replicate k '/') ∧
    ('h' : Char) ≠ '/' :=
  ⟨c6_amended_url_building.2.2.1 "http://h//",
   c6_amended_url_building.2.2.2 "http://h//" 'h' (by decide)⟩

/-- C6 counterexample: a base URL ending in two slashes loses both of
them, not exactly one, so the built URL differs from the
one-slash-trimmed form the claim describes. -/
theorem c6_counterexample :
    get_radarr_url cfgDoubleSlash = "http://h/api/v3" ∧
    trimOneTrailingSlash cfgDoubleSlash.radarrUrl ++ cfgDoubleSlash.radarrBasePath =
      "http://h//api/v3" ∧
    get_radarr_url cfgDoubleSlash ≠
      trimOneTrailingSlash cfgDoubleSlash.radarrUrl ++ cfgDoubleSlash.radarrBasePath := by
  refine ⟨by decide, by decide, by decide⟩

/-- C2 counterexample: a movie whose raw payload stores
`movieFile.mediaInfo.watched = true` makes the backend-native movie
watched fallback return true, refuting that it returns false
unconditionally. -/
theorem c2_counterexample :
    RadarrService.is_movie_watched c2CexMovie = .ok (.bool true) ∧
    RadarrService.is_movie_watched c2CexMovie ≠ .ok (.bool false) := by
  exact ⟨by decide, by decide⟩

/-- C2 amended: with zero providers configured, the series fallback
returns true exactly when statistics are present with
episodeFileCount >= episodeCount (a series without statistics yields
false); the movie fallback is not unconditionally false: it returns true
exactly when the raw payload stores `movieFile.mediaInfo.watched = true`,
and defaults to false when any level of that path is absent. -/
theorem c2_amended_fallback :
    (∀ s : Series, SonarrService.is_series_watched s = true ↔
      ∃ st, s.statistics = some st ∧ st.episode_count ≤ st.episode_file_count) ∧
    (∀ m : Movie, RadarrService.is_movie_watched m = .ok (.bool true) ↔
      ∃ mf mi, dget m.data "movieFile" = some (.obj mf) ∧
        dget mf "mediaInfo" = some (.obj mi) ∧
        dget mi "watched" = some (.bool true)) := by
  constructor
  · intro s
    cases hst : s.statistics with
    | none => simp [SonarrService.is_series_watched, hst]
    | some st => simp [SonarrService.is_series_watched, hst]
  · intro m
    unfold RadarrService.is_movie_watched
    cases hmf : List.lookup "movieFile" m.data with
    | none =>
      simp [dget, dgetD, jsonGet, hmf, List.lookup]
    | some mfv =>
      cases mfv with
      | obj mfs =>
        cases hmi : List.lookup "mediaInfo" mfs with
        | none =>
          simp [dget, dgetD, jsonGet, hmf, hmi, List.lookup]
        | some miv =>
          cases miv with
          | obj mis =>
            cases hw : List.lookup "watched" mis with
            | none => simp [dget, dgetD, jsonGet, hmf, hmi, hw]
            | some wv => simp [dget, dgetD, jsonGet, hmf, hmi, hw]
          | null => simp [dget, dgetD, jsonGet, hmf, hmi]
          | bool b => simp [dget, dgetD, jsonGet, hmf, hmi]
          | num n => simp [dget, dgetD, jsonGet, hmf, hmi]
          | str s2 => simp [dget, dgetD, jsonGet, hmf, hmi]
          | arr xs => simp [dget, dgetD, jsonGet, hmf, hmi]
      | null => simp [dget, dgetD, jsonGet, hmf]
      | bool b => simp [dget, dgetD, jsonGet, hmf]
      | num n => simp [dget, dgetD, jsonGet, hmf]
      | str s2 => simp [dget, dgetD, jsonGet, hmf]
      | arr xs => simp [dget, dgetD, jsonGet, hmf]

/-- C2 witness: a fully downloaded series is reported watched by the
fallback, and the stored movie flag is read back. -/
theorem c2_witness :
    SonarrService.is_series_watched c2WitnessSeries = true ∧
    RadarrService.is_movie_watched c2CexMovie = .ok (.bool true) :=
  ⟨(c2_amended_fallback.1 c2WitnessSeries).mpr ⟨_, rfl, by norm_num⟩,
   (c2_amended_fallback.2 c2CexMovie).mpr ⟨_, _, rfl, rfl, rfl⟩⟩

theorem dget_setIfSupplied (e : Dict) (kf k : String) (o : Option Json) :
    dget (setIfSupplied e kf o) k =
      if k = kf then
        (match o with
         | some v => some v
         | none => dget e k)
      else dget e k := by
  cases o with
  | none => simp [setIfSupplied]
  | some v => simp [setIfSupplied, dget_dictSet]

/-- C9: for every update tool invocation with a partial set of fields
supplied, the entity written back agrees with the freshly fetched existing
entity on every key not supplied in the arguments, and holds the supplied
value on every supplied field. -/
theorem c9_read_modify_write :
    (∀ (existing : Dict) (a : UpdateRadarrArgs) (k : String),
      dget (update_radarr_movie_merged existing a) k =
        match radarrSuppliedField a k with
        | some v => some v
        | none => dget existing k) ∧
    (∀ (existing : Dict) (a : UpdateSonarrArgs) (k : String),
      dget (update_sonarr_series_merged existing a) k =
        match sonarrSuppliedField a k with
        | some v => some v
        | none => dget existing k) := by
  constructor
  · intro existing a k
    obtain ⟨mo, qp, mav, tg⟩ := a
    simp only [update_radarr_movie_merged, radarrSuppliedField]
    rw [dget_setIfSupplied, dget_setIfSupplied, dget_setIfSupplied, dget_setIfSupplied]
    by_cases h1 : k = "monitored" <;> by_cases h2 : k = "qualityProfileId" <;>
      by_cases h3 : k = "minimumAvailability" <;> by_cases h4 : k = "tags" <;>
      simp_all
  · intro existing a k
    obtain ⟨mo, qp, sty, sfo, tg⟩ := a
    simp only [update_sonarr_series_merged, sonarrSuppliedField]
    rw [dget_setIfSupplied, dget_setIfSupplied, dget_setIfSupplied,
      dget_setIfSupplied, dget_setIfSupplied]
    by_cases h1 : k = "monitored" <;> by_cases h2 : k = "qualityProfileId" <;>
      by_cases h3 : k = "seriesType" <;> by_cases h4 : k = "seasonFolder" <;>
      by_cases h5 : k = "tags" <;> simp_all

/-- C8 amended: queue progress is guarded (positive size divides, size <= 0
yields a blank progress, never an error), while disk usage guards only a
missing totalSpace key by defaulting the divisor to 1: an explicit
totalSpace of 0 raises a division error instead of being treated as 0%
used. -/
theorem c8_amended_division_guards :
    (∀ (item : Dict) (s l : Int),
      dgetD item "size" (.num 0) = .num s →
      dgetD item "sizeleft" (.num 0) = .num l →
      queueItemProgress item =
        .ok (if 0 < s then some (((s : ℚ) - (l : ℚ)) / (s : ℚ) * 100) else none)) ∧
    (∀ (disk : Dict) (f t : Int),
      dgetD disk "freeSpace" (.num 0) = .num f →
      dgetD disk "totalSpace" (.num 1) = .num t → t = 0 →
      diskPercentUsed disk = .error .zeroDivisionError) ∧
    (∀ (disk : Dict) (f t : Int),
      dgetD disk "freeSpace" (.num 0) = .num f →
      dgetD disk "totalSpace" (.num 1) = .num t → t ≠ 0 →
      diskPercentUsed disk = .ok (pyRound2 ((1 - (f : ℚ) / (t : ℚ)) * 100))) ∧
    (∀ (disk : Dict) (f : Int),
      dget disk "totalSpace" = none →
      dgetD disk "freeSpace" (.num 0) = .num f →
      diskPercentUsed disk = .ok (pyRound2 ((1 - (f : ℚ)) * 100))) := by
  refine ⟨?_, ?_, ?_, ?_⟩
  · intro item s l hs hl
    simp only [queueItemProgress, hs, hl, pyGtInt, pyToRat, exceptOkBind]
    by_cases h : 0 < s <;> simp [h]
  · intro disk f t hf ht h0
    simp only [diskPercentUsed, hf, ht, pyToRat, exceptOkBind, h0]
    norm_num
  · intro disk f t hf ht h0
    simp only [diskPercentUsed, hf, ht, pyToRat, exceptOkBind]
    rw [if_neg (by exact_mod_cast h0)]
  · intro disk f hnone hf
    have ht : dgetD disk "totalSpace" (.num 1) = .num 1 := by
      simp [dgetD, hnone]
    simp only [diskPercentUsed, hf, ht, pyToRat, exceptOkBind]
    norm_num

/-- C8 witness: size=100, sizeLeft=25 yields 75 percent; an explicit zero
total raises the division error. -/
theorem c8_witness :
    queueItemProgress [("size", .num 100), ("sizeleft", .num 25)] = .ok (some 75) ∧
    diskPercentUsed [("freeSpace", .num 50), ("totalSpace", .num 0)] =
      .error .zeroDivisionError := by
  constructor
  · have h := c8_amended_division_guards.1
      [("size", .num 100), ("sizeleft", .num 25)] 100 25 rfl rfl
    rw [h]
    norm_num
  · exact c8_amended_division_guards.2.1
      [("freeSpace", .num 50), ("totalSpace", .num 0)] 50 0 rfl rfl rfl

/-- C8 counterexample: a disk entry whose totalSpace is present and zero
raises ZeroDivisionError out of the whole disk-space handler, refuting
that a zero-sized total never causes a division error. -/
theorem c8_counterexample :
    diskPercentUsed [("freeSpace", .num 0), ("totalSpace", .num 0)] =
      .error .zeroDivisionError ∧
    handleDiskSpaceEntries [[("freeSpace", .num 0), ("totalSpace", .num 0)]] =
      .error .zeroDivisionError := by
  exact ⟨by decide, by decide⟩

theorem pyIter_nil_not_truthy (j : Json) (h : pyIter j = .ok []) :
    pyTruthy j = false := by
  cases j with
  | null => simp [pyIter] at h
  | bool b => simp [pyIter] at h
  | num n => simp [pyIter] at h
  | str s =>
    simp [pyIter] at h
    simp [pyTruthy, String.length, h]
  | arr xs =>
    simp [pyIter] at h
    simp [pyTruthy, h]
  | obj fs =>
    simp [pyIter] at h
    simp [pyTruthy, h]

/-- C10: for both watch providers, the per-provider series watched verdict
is never vacuously true: an empty search result yields false, a matched
series with an empty episode list yields false, and a true verdict implies
a non-empty episode list every member of which passes the positive
play/view count check. -/
theorem c10_never_vacuously_true :
    (∀ g, plexIsSeriesWatched (.ok (.arr [])) g = .ok false) ∧
    (∀ x xs g rk, jsonGet x "ratingKey" Json.null = .ok rk →
      g rk = .ok (.arr []) →
      plexIsSeriesWatched (.ok (.arr (x :: xs))) g = .ok false) ∧
    (∀ s g, plexIsSeriesWatched s g = .ok true →
      ∃ epsJ eps, (∃ rk, g rk = .ok epsJ) ∧ pyIter epsJ = .ok eps ∧ eps ≠ [] ∧
        ∀ ep ∈ eps, plexEpisodeWatched ep = .ok true) ∧
    (∀ g, jellyfinIsSeriesWatched (.ok (.arr [])) g = .ok false) ∧
    (∀ x xs g sid, jsonGet x "Id" Json.null = .ok sid →
      g sid = .ok (.arr []) →
      jellyfinIsSeriesWatched (.ok (.arr (x :: xs))) g = .ok false) ∧
    (∀ s g, jellyfinIsSeriesWatched s g = .ok true →
      ∃ epsJ eps, (∃ sid, g sid = .ok epsJ) ∧ pyIter epsJ = .ok eps ∧ eps ≠ [] ∧
        ∀ ep ∈ eps, jellyfinEpisodeWatched ep = .ok true) := by
  refine ⟨fun g => rfl, ?_, ?_, fun g => rfl, ?_, ?_⟩
  · intro x xs g rk h1 h2
    simp [plexIsSeriesWatched, pyIndexZero, pyTruthy, h1, h2]
  · intro s g h
    unfold plexIsSeriesWatched at h
    cases s with
    | error e => simp at h
    | ok items =>
      rw [exceptOkBind] at h
      by_cases hti : pyTruthy items = true
      · simp only [hti, Bool.not_true, Bool.false_eq_true, if_false] at h
        cases hidx : pyIndexZero items with
        | error e => rw [hidx] at h; simp at h
        | ok seriesItem =>
          rw [hidx, exceptOkBind] at h
          cases hrk : jsonGet seriesItem "ratingKey" Json.null with
          | error e => rw [hrk] at h; simp at h
          | ok rk =>
            rw [hrk, exceptOkBind] at h
            cases hg : g rk with
            | error e => rw [hg] at h; simp at h
            | ok epsJ =>
              rw [hg, exceptOkBind] at h
              by_cases hte : pyTruthy epsJ = true
              · simp only [hte, Bool.not_true, Bool.false_eq_true, if_false] at h
                cases hit : pyIter epsJ with
                | error e => rw [hit] at h; simp at h
                | ok eps =>
                  rw [hit, exceptOkBind] at h
                  refine ⟨epsJ, eps, ⟨rk, hg⟩, hit, ?_,
                    pyAllM_ok_true_forall _ _ h⟩
                  intro hnil
                  subst hnil
                  rw [pyIter_nil_not_truthy epsJ hit] at hte
                  cases hte
              · have hte2 : pyTruthy epsJ = false := by
                  simpa using hte
                rw [hte2] at h
                simp at h
      · have hti2 : pyTruthy items = false := by simpa using hti
        rw [hti2] at h
        simp at h
  · intro x xs g sid h1 h2
    simp [jellyfinIsSeriesWatched, pyIndexZero, pyTruthy, h1, h2]
  · intro s g h
    unfold jellyfinIsSeriesWatched at h
    cases s with
    | error e => simp at h
    | ok items =>
      rw [exceptOkBind] at h
      by_cases hti : pyTruthy items = true
      · simp only [hti, Bool.not_true, Bool.false_eq_true, if_false] at h
        cases hidx : pyIndexZero items with
        | error e => rw [hidx] at h; simp at h
        | ok seriesItem =>
          rw [hidx, exceptOkBind] at h
          cases hsid : jsonGet seriesItem "Id" Json.null with
          | error e => rw [hsid] at h; simp at h
          | ok sid =>
            rw [hsid, exceptOkBind] at h
            cases hg : g sid with
            | error e => rw [hg] at h; simp at h
            | ok epsJ =>
              rw [hg, exceptOkBind] at h
              by_cases hte : pyTruthy epsJ = true
              · simp only [hte, Bool.not_true, Bool.false_eq_true, if_false] at h
                cases hit : pyIter epsJ with
                | error e => rw [hit] at h; simp at h
                | ok eps =>
                  rw [hit, exceptOkBind] at h
                  refine ⟨epsJ, eps, ⟨sid, hg⟩, hit, ?_,
                    pyAllM_ok_true_forall _ _ h⟩
                  intro hnil
                  subst hnil
                  rw [pyIter_nil_not_truthy epsJ hit] at hte
                  cases hte
              · have hte2 : pyTruthy epsJ = false := by
                  simpa using hte
                rw [hte2] at h
                simp at h
      · have hti2 : pyTruthy items = false := by simpa using hti
        rw [hti2] at h
        simp at h

/-- C10 witness: an empty search yields false for Jellyfin, and a matched
series with an empty episode list yields false for Plex. -/
theorem c10_witness :
    plexIsSeriesWatched (.ok (.arr [Json.obj [("ratingKey", .str "1")]]))
      (fun _ => .ok (.arr [])) = .ok false ∧
    jellyfinIsSeriesWatched (.ok (.arr [])) (fun _ => .ok (.arr [])) = .ok false :=
  ⟨c10_never_vacuously_true.2.1 (Json.obj [("ratingKey", .str "1")]) []
      (fun _ => .ok (.arr [])) (.str "1") rfl rfl,
   c10_never_vacuously_true.2.2.2.1 (fun _ => .ok (.arr []))⟩

/-- C7 amended: list-response overviews longer than 200 characters are
truncated to 200 characters plus an ellipsis and shorter ones pass through
unchanged; the single-entity detail DICT keeps the full overview, but the
caller-visible formatted detail text includes the overview only when it is
non-empty and strictly shorter than 200 characters, omitting it
otherwise. -/
theorem c7_overview_truncation :
    (∀ (m : Dict) (s : String), dgetD m "overview" (.str "") = .str s →
      truncatedOverview m = .ok (.str (truncStr s)) ∧
      (s.length ≤ 200 → truncatedOverview m = .ok (.str s))) ∧
    (∀ movie : Dict, ∃ fields : Dict,
      getRadarrMovieByIdResult movie = [("movie", .obj fields)] ∧
      dget fields "overview" = some (dgetD movie "overview" .null)) ∧
    (∀ r : MovieRec,
      getRadarrMovieByIdFormatted (movieDict r) = .ok (movieDetailExpected r)) := by
  refine ⟨?_, ?_, ?_⟩
  · intro m s hov
    have hmain : truncatedOverview m = .ok (.str (truncStr s)) := by
      simp only [truncatedOverview, hov, pyLen, exceptOkBind]
      by_cases h : 200 < s.length <;> simp [h, truncStr]
    refine ⟨hmain, fun hle => ?_⟩
    rw [hmain, truncStr, if_neg (by omega)]
  · intro movie
    refine ⟨_, rfl, ?_⟩
    simp [getRadarrMovieByIdResult, dget, List.lookup]
  · intro r
    have h1 : getRadarrMovieByIdResult (movieDict r) =
        [("movie", .obj [("id", .num r.id), ("title", .str r.title),
          ("year", .num r.year), ("tmdbId", .num r.tmdbId), ("imdbId", .null),
          ("overview", .str r.overview), ("status", .str r.status),
          ("monitored", .bool r.monitored), ("hasFile", .bool r.hasFile),
          ("qualityProfileId", .null), ("minimumAvailability", .null),
          ("rootFolderPath", .null), ("path", .null), ("runtime", .null),
          ("genres", .arr []), ("ratings", .obj []), ("sizeOnDisk", .num 0),
          ("tags", .arr [])])] := rfl
    show formatMediaDetails true (getRadarrMovieByIdResult (movieDict r)) = _
    rw [h1]
    simp only [formatMediaDetails, dgetD, dget, List.lookup, jsonGet, pyTruthy,
      pyStr, pyLen, exceptOkBind, exceptPureEq, movieDetailExpected]
    by_cases h0 : r.overview.length = 0 <;> by_cases h2 : r.overview.length < 200 <;>
      cases hm : r.monitored <;> cases hf : r.hasFile <;>
      simp [h0, h2, List.lookup, pyStr, pyTruthy, pyLen, exceptOkBind, exceptPureEq]

/-- C7 witness: a 250-character overview is truncated with an ellipsis in
list normalization, and a short one passes through unchanged. -/
theorem c7_witness :
    truncatedOverview c7CexMovie = .ok (.str (truncStr ovLong)) ∧
    truncatedOverview [("overview", .str "abc")] = .ok (.str "abc") :=
  ⟨(c7_overview_truncation.1 c7CexMovie ovLong rfl).1,
   (c7_overview_truncation.1 [("overview", .str "abc")] "abc" rfl).2 (by decide)⟩

/-- C7 counterexample: the caller-visible detail view of a movie with a
250-character overview contains no overview text at all (the whole output
is shorter than the overview), refuting that the full untruncated overview
is preserved in the caller-visible output. -/
theorem c7_counterexample :
    getRadarrMovieByIdFormatted c7CexMovie =
      .ok "**None (None)**\nStatus: None\nMonitored: No\nDownloaded: No" ∧
    ovLong.length = 250 ∧
    ("**None (None)**\nStatus: None\nMonitored: No\nDownloaded: No" : String).length
      < 250 := by
  refine ⟨by decide, by decide, by decide⟩

theorem movieDict_monitored_eq (r : MovieRec) (b : Bool) :
    pyEqBool (dgetD (movieDict r) "monitored" Json.null) b = (r.monitored == b) := rfl

theorem movieDict_hasFile_eq (r : MovieRec) (b : Bool) :
    pyEqBool (dgetD (movieDict r) "hasFile" (Json.bool false)) b = (r.hasFile == b) := rfl

theorem seriesDict_monitored_eq (r : SeriesRec) (b : Bool) :
    pyEqBool (dgetD (seriesDict r) "monitored" Json.null) b = (r.monitored == b) := rfl

theorem normRadarrMovie_movieDict (r : MovieRec) :
    normRadarrMovie (movieDict r) = .ok (normMovieRecItem r) := by
  have hov : dgetD (movieDict r) "overview" (.str "") = .str r.overview := rfl
  simp only [normRadarrMovie, truncatedOverview, hov, pyLen, exceptOkBind]
  by_cases h : 200 < r.overview.length <;>
    simp [h, normMovieRecItem, truncStr, movieDict, dgetD, dget, List.lookup]

theorem mediaListItemLine_norm (r : MovieRec) :
    mediaListItemLine true (normMovieRecItem r) = movieLineExpected r := by
  simp [mediaListItemLine, movieLineExpected, normMovieRecItem, dgetD, dget,
    List.lookup, pyStr, String.append_assoc]

theorem getRadarrMoviesResult_wf (xs : List MovieRec) (ma da : Option Bool) :
    getRadarrMoviesResult (xs.map movieDict) ma da =
      .ok { count := (xs.filter (fun r => movieMatches r ma da)).length,
            items := ((xs.filter (fun r => movieMatches r ma da)).take 50).map
              normMovieRecItem } := by
  have hmap : ∀ (ys : List MovieRec),
      ((ys.map movieDict).take 50).mapM normRadarrMovie =
        .ok ((ys.take 50).map normMovieRecItem) := by
    intro ys
    rw [← List.map_take]
    exact mapM_ok_of_map movieDict normRadarrMovie normMovieRecItem
      normRadarrMovie_movieDict (ys.take 50)
  cases ma with
  | none =>
    cases da with
    | none =>
      simp only [getRadarrMoviesResult]
      rw [hmap xs]
      simp [movieMatches, List.length_map]
    | some b =>
      simp only [getRadarrMoviesResult]
      rw [filter_map_eq_map_filter movieDict _ (fun r => r.hasFile == b)
        (fun r => movieDict_hasFile_eq r b), hmap]
      simp [movieMatches, List.length_map]
  | some b0 =>
    cases da with
    | none =>
      simp only [getRadarrMoviesResult]
      rw [filter_map_eq_map_filter movieDict _ (fun r => r.monitored == b0)
        (fun r => movieDict_monitored_eq r b0), hmap]
      simp [movieMatches, List.length_map]
    | some b =>
      simp only [getRadarrMoviesResult]
      rw [filter_map_eq_map_filter movieDict _ (fun r => r.monitored == b0)
        (fun r => movieDict_monitored_eq r b0),
        filter_map_eq_map_filter movieDict _ (fun r => r.hasFile == b)
        (fun r => movieDict_hasFile_eq r b),
        filter_filter_and, hmap]
      simp [movieMatches, List.length_map]

theorem getRadarrMoviesFormatted_wf (xs : List MovieRec) (ma da : Option Bool) :
    getRadarrMoviesFormatted (xs.map movieDict) ma da =
      .ok (radarrListExpected xs ma da) := by
  unfold getRadarrMoviesFormatted
  rw [getRadarrMoviesResult_wf]
  simp only [exceptMapOk]
  apply congrArg Except.ok
  unfold formatMediaList radarrListExpected
  by_cases hemp : (xs.filter (fun r => movieMatches r ma da)).isEmpty
  · have h0 : xs.filter (fun r => movieMatches r ma da) = [] := by
      simpa [List.isEmpty_iff] using hemp
    rw [h0]
    simp
  · have h0 : ¬ xs.filter (fun r => movieMatches r ma da) = [] := by
      simpa [List.isEmpty_iff] using hemp
    have hitems : (((xs.filter (fun r => movieMatches r ma da)).take 50).map
        normMovieRecItem).isEmpty = false := by
      simp [List.isEmpty_iff, List.map_eq_nil_iff, List.take_eq_nil_iff, h0]
    simp only [hitems, Bool.false_eq_true, if_false, hemp, if_neg]
    apply congrArg (String.intercalate "\n")
    simp only [formatMediaListLines, List.map_map, List.length_map, List.length_take]
    have hfun : mediaListItemLine true ∘ normMovieRecItem = movieLineExpected :=
      funext mediaListItemLine_norm
    rcases Nat.lt_or_ge 50 (xs.filter (fun r => movieMatches r ma da)).length with h50 | h50
    · rw [Nat.min_eq_left (Nat.le_of_lt h50)]
      simp [h50, hfun, String.append_assoc]
    · rw [Nat.min_eq_right h50]
      simp [Nat.lt_irrefl, Nat.not_lt_of_le h50, hfun, String.append_assoc]

theorem isEmpty_map_eq {α β : Type} (f : α → β) (l : List α) :
    (l.map f).isEmpty = l.isEmpty := by
  cases l <;> rfl

theorem getSonarrSeriesOutput_wf (xs : List SeriesRec) (ma da : Option Bool) :
    getSonarrSeriesOutput (xs.map seriesDict) ma da =
      .ok (sonarrListExpected xs ma da) := by
  have hmain : ∀ (ys : List SeriesRec) (hys : ys = xs.filter
      (fun r => seriesMatches r ma da)),
      (if (ys.map seriesDict).isEmpty then
        (pure "No series found." : Except PyErr String)
      else do
        let itemLines ← ((ys.map seriesDict).take 50).mapM (fun s => do
          let epCount ← sonarrSeriesStat s "episodeFileCount"
          let totalEps ← sonarrSeriesStat s "episodeCount"
          pure ("  " ++ pyStr (dgetD s "title" (.str "Unknown")) ++ " (" ++
            pyStr (dgetD s "year" (.str "Unknown")) ++ ") - " ++
            pyStr epCount ++ "/" ++ pyStr totalEps))
        let lines := (toString (ys.map seriesDict).length ++ " series:") :: itemLines ++
          (if 50 < (ys.map seriesDict).length then
            ["  ... " ++ toString ((ys.map seriesDict).length - 50) ++ " more"]
          else [])
        pure (String.intercalate "\n" lines)) = .ok (sonarrListExpected xs ma da) := by
    intro ys hys
    rw [isEmpty_map_eq]
    unfold sonarrListExpected
    rw [← hys]
    by_cases hemp : ys = []
    · rw [hemp]
      simp
    · have he : ys.isEmpty = false := by simp [List.isEmpty_iff, hemp]
      rw [he]
      simp only [Bool.false_eq_true, if_false]
      rw [← List.map_take,
        mapM_ok_of_map seriesDict _ seriesLineExpected (fun r => rfl),
        exceptOkBind]
      simp [List.length_map, hemp]
  cases ma with
  | none =>
    cases da with
    | none =>
      simp only [getSonarrSeriesOutput, exceptOkBind, exceptPureEq]
      exact hmain xs (by simp [seriesMatches])
    | some b =>
      simp only [getSonarrSeriesOutput]
      rw [pyFilterM_map_ok seriesDict _
        (fun r => decide (0 < r.epFileCount) == b) (fun r => rfl), exceptOkBind]
      exact hmain _ (by simp [seriesMatches])
  | some b0 =>
    cases da with
    | none =>
      simp only [getSonarrSeriesOutput, exceptOkBind, exceptPureEq]
      rw [filter_map_eq_map_filter seriesDict _ (fun r => r.monitored == b0)
        (fun r => seriesDict_monitored_eq r b0)]
      exact hmain _ (by simp [seriesMatches])
    | some b =>
      simp only [getSonarrSeriesOutput]
      rw [filter_map_eq_map_filter seriesDict _ (fun r => r.monitored == b0)
        (fun r => seriesDict_monitored_eq r b0),
        pyFilterM_map_ok seriesDict _
        (fun r => decide (0 < r.epFileCount) == b) (fun r => rfl), exceptOkBind]
      exact hmain _ (by rw [filter_filter_and]; simp [seriesMatches])

theorem searchRadarrMoviesOutput_wf (xs : List MovieRec) :
    searchRadarrMoviesOutput (xs.map movieDict) = radarrSearchExpected xs := by
  unfold searchRadarrMoviesOutput radarrSearchExpected searchRadarrMoviesLines
  rw [isEmpty_map_eq, ← List.map_take, List.map_map]
  have hfun : (fun m => "  " ++ pyStr (dgetD m "title" (.str "Unknown")) ++ " (" ++
      pyStr (dgetD m "year" (.str "Unknown")) ++ ") - ID: " ++
      pyStr (dgetD m "tmdbId" Json.null)) ∘ movieDict = searchMovieLineExpected :=
    funext fun r => rfl
  rw [hfun, List.length_map]

theorem searchSonarrSeriesOutput_wf (xs : List SeriesRec) :
    searchSonarrSeriesOutput (xs.map seriesDict) = sonarrSearchExpected xs := by
  unfold searchSonarrSeriesOutput sonarrSearchExpected searchSonarrSeriesLines
  rw [isEmpty_map_eq, ← List.map_take, List.map_map]
  have hfun : (fun s => "  " ++ pyStr (dgetD s "title" (.str "Unknown")) ++ " (" ++
      pyStr (dgetD s "year" (.str "Unknown")) ++ ") - ID: " ++
      pyStr (dgetD s "tvdbId" Json.null)) ∘ seriesDict = searchSeriesLineExpected :=
    funext fun r => rfl
  rw [hfun, List.length_map]

/-- C1 amended: for every well-formed backend response, the list tools
report the TOTAL matched count in the header, display at most 50 items
(20 for the search tools), and append the more-marker exactly when the
total exceeds the display cap -- for the LIST tools only; the search tools
cap at 20 items but never append a marker. -/
theorem c1_amended_counts_caps_markers :
    (∀ (xs : List MovieRec) (ma da : Option Bool),
      getRadarrMoviesFormatted (xs.map movieDict) ma da =
        .ok (radarrListExpected xs ma da)) ∧
    (∀ (xs : List SeriesRec) (ma da : Option Bool),
      getSonarrSeriesOutput (xs.map seriesDict) ma da =
        .ok (sonarrListExpected xs ma da)) ∧
    (∀ xs : List MovieRec,
      searchRadarrMoviesOutput (xs.map movieDict) = radarrSearchExpected xs) ∧
    (∀ xs : List SeriesRec,
      searchSonarrSeriesOutput (xs.map seriesDict) = sonarrSearchExpected xs) :=
  ⟨getRadarrMoviesFormatted_wf, getSonarrSeriesOutput_wf,
   searchRadarrMoviesOutput_wf, searchSonarrSeriesOutput_wf⟩

/-- C1 counterexample: a movie search returning 21 results displays only
20 item lines yet appends no more-marker of any kind, refuting that the
marker appears exactly when the total count exceeds the displayed items. -/
theorem c1_counterexample :
    searchRadarrMoviesLines c1CexMovies =
      "Found 21 movies in search:" :: List.replicate 20 "  A (2000) - ID: 7" ∧
    c1CexMovies.length = 21 ∧
    "  ... 1 more" ∉ searchRadarrMoviesLines c1CexMovies ∧
    ∀ l ∈ searchRadarrMoviesLines c1CexMovies,
      List.isSuffixOf (" more").data l.data = false := by
  refine ⟨by decide, by decide, by decide, by decide⟩
